import Mathlib

/-!
Verification development for the SignSpeak ISL avatar engine
(`src/avatar/avatar_3d.py`, class `ISLAvatar`).

Modelling decisions (CPython semantics of the source):

* `Joint` dataclass instances are mutable heap objects, and a Python dict
  maps joint names to object references.  In `avatar_3d.py` exactly one
  `Joint` object is ever created per joint name (inside `_create_skeleton`),
  and every later `self.skeleton.copy()` is a *shallow* dict copy: it
  duplicates the name-to-reference table while sharing the referenced
  `Joint` objects.  No statement in the file ever rebinds a dict value; the
  code only attribute-mutates the shared objects
  (`joints['right_wrist'].rotation = ...`).  A reference is therefore fully
  determined by its joint name.  Since the skeleton dict's key set is fixed
  once `_create_skeleton`'s literal is built (nothing is ever inserted or
  deleted), we model the heap as a record `Store` with one `Joint` field
  per name, a dict copy as the fixed key list `skeletonKeys` (the literal's
  insertion order), and attribute assignment as a field update.
* The twelve joint-name strings `'head'`, `'neck'`, ... of the source are
  modelled by the enumerated type `JointName` whose constructors carry the
  same names; this is a transparent bijection kept so that concrete
  evaluation of the model stays tractable.  Gesture names (`'HELLO'`, ...)
  stay ordinary strings.
* `math.sin` operates on floats.  We keep its values abstract by threading
  a parameter `s : ℚ → ℚ`, where `s x` stands for the float value of
  `math.sin(x * math.pi)` in the source (the source only ever applies
  `math.sin` to a rational multiple of `math.pi`).  No theorem below
  depends on the values of `s`.
* Python floats are modelled as exact rationals.  Every timestamp
  computation in the source (`i / 9.0 * 2.0`, `duration / original`,
  `+ 0.5`) stays in a range where the float and rational computations
  agree on the comparisons and equalities stated below.  Because the
  library arithmetic on `ℚ` is `@[irreducible]`, the model computes with
  the kernel-reducible equivalents `q`, `qadd`, `qsub`, `qmul`, `qdiv`,
  `qabs`, each proved equal to `/`, `+`, `-`, `*`, `/`, `|.|` below.
* `logger.warning` calls are pure logging and are dropped; a Python
  function that logs and returns a value is modelled by the value alone.
-/

set_option maxRecDepth 40000

/-- The rational written `n / d` in the source, in kernel-reducible form. -/
def q (n d : ℤ) : ℚ := Rat.divInt n d

/-- Kernel-reducible addition on `ℚ` (proved equal to `+` in `qadd_eq`). -/
def qadd (a b : ℚ) : ℚ := mkRat (a.num * b.den + b.num * a.den) (a.den * b.den)

/-- Kernel-reducible subtraction on `ℚ` (proved equal to `-` in `qsub_eq`). -/
def qsub (a b : ℚ) : ℚ := mkRat (a.num * b.den - b.num * a.den) (a.den * b.den)

/-- Kernel-reducible multiplication on `ℚ` (proved equal to `*` in `qmul_eq`). -/
def qmul (a b : ℚ) : ℚ := mkRat (a.num * b.num) (a.den * b.den)

/-- Kernel-reducible division on `ℚ` (proved equal to `/` in `qdiv_eq`);
like `/` on `ℚ` it sends division by zero to `0`, a case exercised by no
theorem below. -/
def qdiv (a b : ℚ) : ℚ := Rat.divInt (a.num * b.den) (a.den * b.num)

/-- Kernel-reducible absolute value on `ℚ` (proved equal to `|.|` in
`qabs_eq`); models Python's `abs`. -/
def qabs (a : ℚ) : ℚ := if a < 0 then Rat.neg a else a

theorem q_eq (n d : ℤ) : q n d = (n : ℚ) / (d : ℚ) := Rat.divInt_eq_div n d

theorem qadd_eq (a b : ℚ) : qadd a b = a + b := (Rat.add_def' a b).symm

theorem qsub_eq (a b : ℚ) : qsub a b = a - b := (Rat.sub_def' a b).symm

theorem qmul_eq (a b : ℚ) : qmul a b = a * b := by
  rw [qmul, Rat.mkRat_eq_divInt, Rat.divInt_eq_div]
  push_cast
  rw [← div_mul_div_comm, Rat.num_div_den, Rat.num_div_den]

theorem qdiv_eq (a b : ℚ) : qdiv a b = a / b := by
  rw [qdiv, Rat.divInt_eq_div]
  have had : ((a.den : ℚ)) ≠ 0 := by exact_mod_cast a.den_nz
  have hbd : ((b.den : ℚ)) ≠ 0 := by exact_mod_cast b.den_nz
  have hna : (a.num : ℚ) = a * a.den := (div_eq_iff had).1 (Rat.num_div_den a)
  have hnb : (b.num : ℚ) = b * b.den := (div_eq_iff hbd).1 (Rat.num_div_den b)
  push_cast
  rcases eq_or_ne b 0 with hb | hb
  · subst hb
    simp
  · have hbn : (b.num : ℚ) ≠ 0 := by
      rw [hnb]
      exact mul_ne_zero hb hbd
    rw [div_eq_div_iff (mul_ne_zero had hbn) hb, hna, hnb]
    ring

theorem qabs_eq (a : ℚ) : qabs a = |a| := by
  rw [qabs]
  split
  · rename_i h
    rw [abs_of_neg h]
    rfl
  · rename_i h
    rw [abs_of_nonneg (le_of_not_lt h)]

/-- The twelve joint names of `_create_skeleton`, one constructor per
source string. -/
inductive JointName
  | head | neck
  | left_shoulder | left_elbow | left_wrist | left_hand
  | right_shoulder | right_elbow | right_wrist | right_hand
  | spine | hip
deriving DecidableEq

open JointName

/-- Mirrors the `Joint` dataclass: name, position, rotation (Euler, radians),
optional parent name, list of child names. -/
structure Joint where
  name : JointName
  position : ℚ × ℚ × ℚ
  rotation : ℚ × ℚ × ℚ
  parent : Option JointName := none
  children : List JointName := []
deriving DecidableEq

/-- The heap of the twelve `Joint` objects, one field per joint name (see
the header comment: object identity in the source coincides with the joint
name, and the skeleton dict's key set never changes). -/
structure Store where
  head : Joint
  neck : Joint
  left_shoulder : Joint
  left_elbow : Joint
  left_wrist : Joint
  left_hand : Joint
  right_shoulder : Joint
  right_elbow : Joint
  right_wrist : Joint
  right_hand : Joint
  spine : Joint
  hip : Joint
deriving DecidableEq

/-- `skeleton[n]`: dereference the joint object named `n`.  Total because
the skeleton dict always holds exactly the twelve keys. -/
def lookupJoint (st : Store) : JointName → Joint
  | .head => st.head
  | .neck => st.neck
  | .left_shoulder => st.left_shoulder
  | .left_elbow => st.left_elbow
  | .left_wrist => st.left_wrist
  | .left_hand => st.left_hand
  | .right_shoulder => st.right_shoulder
  | .right_elbow => st.right_elbow
  | .right_wrist => st.right_wrist
  | .right_hand => st.right_hand
  | .spine => st.spine
  | .hip => st.hip

/-- Mirrors the `GestureFrame` dataclass.  The `joints` dict of the source is
a shallow copy of the skeleton dict, i.e. a name-to-shared-object table; it
is modelled by its key list, the shared objects living in the `Store`. -/
structure GestureFrame where
  timestamp : ℚ
  joints : List JointName
deriving DecidableEq

/-- In-place mutation of the joint object named `n` (attribute assignment on
the shared object, visible through every dict that references it). -/
def updateJoint (st : Store) (n : JointName) (f : Joint → Joint) : Store :=
  match n with
  | .head => { st with head := f st.head }
  | .neck => { st with neck := f st.neck }
  | .left_shoulder => { st with left_shoulder := f st.left_shoulder }
  | .left_elbow => { st with left_elbow := f st.left_elbow }
  | .left_wrist => { st with left_wrist := f st.left_wrist }
  | .left_hand => { st with left_hand := f st.left_hand }
  | .right_shoulder => { st with right_shoulder := f st.right_shoulder }
  | .right_elbow => { st with right_elbow := f st.right_elbow }
  | .right_wrist => { st with right_wrist := f st.right_wrist }
  | .right_hand => { st with right_hand := f st.right_hand }
  | .spine => { st with spine := f st.spine }
  | .hip => { st with hip := f st.hip }

/-- `joints[n].position = p` in the source. -/
def setPosition (st : Store) (n : JointName) (p : ℚ × ℚ × ℚ) : Store :=
  updateJoint st n (fun j => { j with position := p })

/-- `joints[n].rotation = r` in the source. -/
def setRotation (st : Store) (n : JointName) (r : ℚ × ℚ × ℚ) : Store :=
  updateJoint st n (fun j => { j with rotation := r })

/-- The skeleton dict's key list, in the literal's insertion order (Python
dicts preserve insertion order, and no key is ever added or removed). -/
def skeletonKeys : List JointName :=
  [head, neck,
   left_shoulder, left_elbow, left_wrist, left_hand,
   right_shoulder, right_elbow, right_wrist, right_hand,
   spine, hip]

/-- The dict literal built at the top of `_create_skeleton` (decimal float
literals written as the rationals they denote, e.g. `1.8` as `q 9 5`). -/
def skeletonLiteral : Store where
  head :=
    { name := head, position := (0, q 9 5, 0), rotation := (0, 0, 0) }
  neck :=
    { name := neck, position := (0, q 8 5, 0), rotation := (0, 0, 0),
      children := [head] }
  left_shoulder :=
    { name := left_shoulder, position := (q (-3) 10, q 3 2, 0),
      rotation := (0, 0, 0), children := [left_elbow] }
  left_elbow :=
    { name := left_elbow, position := (q (-1) 2, q 6 5, 0),
      rotation := (0, 0, 0), parent := some left_shoulder,
      children := [left_wrist] }
  left_wrist :=
    { name := left_wrist, position := (q (-7) 10, q 9 10, 0),
      rotation := (0, 0, 0), parent := some left_elbow,
      children := [left_hand] }
  left_hand :=
    { name := left_hand, position := (q (-4) 5, q 7 10, 0),
      rotation := (0, 0, 0), parent := some left_wrist }
  right_shoulder :=
    { name := right_shoulder, position := (q 3 10, q 3 2, 0),
      rotation := (0, 0, 0), children := [right_elbow] }
  right_elbow :=
    { name := right_elbow, position := (q 1 2, q 6 5, 0),
      rotation := (0, 0, 0), parent := some right_shoulder,
      children := [right_wrist] }
  right_wrist :=
    { name := right_wrist, position := (q 7 10, q 9 10, 0),
      rotation := (0, 0, 0), parent := some right_elbow,
      children := [right_hand] }
  right_hand :=
    { name := right_hand, position := (q 4 5, q 7 10, 0),
      rotation := (0, 0, 0), parent := some right_wrist }
  spine :=
    { name := spine, position := (0, q 13 10, 0), rotation := (0, 0, 0),
      children := [left_shoulder, right_shoulder, neck] }
  hip :=
    { name := hip, position := (0, q 9 10, 0), rotation := (0, 0, 0),
      children := [spine] }

/-- `ISLAvatar._create_skeleton`: the dict literal followed by the linking
loop `for joint_name, joint in skeleton.items(): if joint.parent:
skeleton[joint.parent].children.append(joint_name)`.  The loop iterates the
dict in key order; it only mutates `children`, never `parent`. -/
def create_skeleton : Store :=
  skeletonKeys.foldl
    (fun acc n =>
      match (lookupJoint acc n).parent with
      | some par => updateJoint acc par (fun j => { j with children := j.children ++ [n] })
      | none => acc)
    skeletonLiteral

/-- `ISLAvatar._create_hello_gesture` as a state transformer on the shared
heap.  `s (qmul t 2)` models `math.sin(t * math.pi * 2)`. -/
def create_hello_gesture (s : ℚ → ℚ) (st0 : Store) : Store × List GestureFrame :=
  (List.range 10).foldl
    (fun acc i =>
      match acc with
      | (stA, frames) =>
        let t : ℚ := qdiv ((i : ℕ) : ℚ) 9
        -- `self.skeleton.copy()`: shallow copy sharing the joint objects;
        -- its key table is always `skeletonKeys`
        let joints := skeletonKeys
        let wave_angle := qmul (s (qmul t 2)) (q 3 10)
        let st := setRotation stA right_wrist (0, 0, wave_angle)
        let st := setRotation st right_hand (0, 0, wave_angle)
        (st, frames ++ [⟨qmul t 2, joints⟩]))
    (st0, [⟨0, skeletonKeys⟩])

/-- `ISLAvatar._create_thank_you_gesture`. -/
def create_thank_you_gesture (st0 : Store) : Store × List GestureFrame :=
  (List.range 15).foldl
    (fun acc i =>
      match acc with
      | (stA, frames) =>
        let t : ℚ := qdiv ((i : ℕ) : ℚ) 14
        -- `self.skeleton.copy()`: shallow copy sharing the joint objects;
        -- its key table is always `skeletonKeys`
        let joints := skeletonKeys
        let chest_y := qadd (q 6 5) (qmul t (q 3 10))
        let st := setPosition stA left_hand (q (-1) 5, chest_y, q 1 10)
        let st := setPosition st right_hand (q 1 5, chest_y, q 1 10)
        (st, frames ++ [⟨qmul t (q 3 2), joints⟩]))
    (st0, [⟨0, skeletonKeys⟩])

/-- `ISLAvatar._create_yes_gesture`.  `s t` models `math.sin(t * math.pi)`. -/
def create_yes_gesture (s : ℚ → ℚ) (st0 : Store) : Store × List GestureFrame :=
  (List.range 8).foldl
    (fun acc i =>
      match acc with
      | (stA, frames) =>
        let t : ℚ := qdiv ((i : ℕ) : ℚ) 7
        -- `self.skeleton.copy()`: shallow copy sharing the joint objects;
        -- its key table is always `skeletonKeys`
        let joints := skeletonKeys
        let nod_angle := qmul (s t) (q 1 5)
        let st := setRotation stA head (nod_angle, 0, 0)
        let st := setRotation st neck (nod_angle, 0, 0)
        (st, frames ++ [⟨qmul t 1, joints⟩]))
    (st0, [⟨0, skeletonKeys⟩])

/-- `ISLAvatar._create_no_gesture`.  `s (qmul t 4)` models
`math.sin(t * math.pi * 4)`. -/
def create_no_gesture (s : ℚ → ℚ) (st0 : Store) : Store × List GestureFrame :=
  (List.range 12).foldl
    (fun acc i =>
      match acc with
      | (stA, frames) =>
        let t : ℚ := qdiv ((i : ℕ) : ℚ) 11
        -- `self.skeleton.copy()`: shallow copy sharing the joint objects;
        -- its key table is always `skeletonKeys`
        let joints := skeletonKeys
        let shake_angle := qmul (s (qmul t 4)) (q 3 10)
        let st := setRotation stA head (0, 0, shake_angle)
        let st := setRotation st neck (0, 0, shake_angle)
        (st, frames ++ [⟨qmul t (q 6 5), joints⟩]))
    (st0, [⟨0, skeletonKeys⟩])

/-- `ISLAvatar._create_good_gesture` (`1.57` is the source's right angle). -/
def create_good_gesture (st0 : Store) : Store × List GestureFrame :=
  (List.range 10).foldl
    (fun acc i =>
      match acc with
      | (stA, frames) =>
        let t : ℚ := qdiv ((i : ℕ) : ℚ) 9
        -- `self.skeleton.copy()`: shallow copy sharing the joint objects;
        -- its key table is always `skeletonKeys`
        let joints := skeletonKeys
        let st := setRotation stA right_hand (0, 0, q 157 100)
        let st := setRotation st right_wrist (0, 0, q 3 10)
        (st, frames ++ [⟨qmul t 1, joints⟩]))
    (st0, [⟨0, skeletonKeys⟩])

/-- `ISLAvatar._create_bad_gesture`. -/
def create_bad_gesture (st0 : Store) : Store × List GestureFrame :=
  (List.range 10).foldl
    (fun acc i =>
      match acc with
      | (stA, frames) =>
        let t : ℚ := qdiv ((i : ℕ) : ℚ) 9
        -- `self.skeleton.copy()`: shallow copy sharing the joint objects;
        -- its key table is always `skeletonKeys`
        let joints := skeletonKeys
        let st := setRotation stA right_hand (0, 0, q (-157) 100)
        let st := setRotation st right_wrist (0, 0, q (-3) 10)
        (st, frames ++ [⟨qmul t 1, joints⟩]))
    (st0, [⟨0, skeletonKeys⟩])

/-- `ISLAvatar._create_water_gesture`. -/
def create_water_gesture (st0 : Store) : Store × List GestureFrame :=
  (List.range 15).foldl
    (fun acc i =>
      match acc with
      | (stA, frames) =>
        let t : ℚ := qdiv ((i : ℕ) : ℚ) 14
        -- `self.skeleton.copy()`: shallow copy sharing the joint objects;
        -- its key table is always `skeletonKeys`
        let joints := skeletonKeys
        let mouth_y := qsub (q 8 5) (qmul t (q 2 5))
        let st := setPosition stA right_hand (q 1 10, mouth_y, q 1 5)
        let st := setRotation st right_elbow (0, 0, qmul t (q 1 2))
        (st, frames ++ [⟨qmul t 2, joints⟩]))
    (st0, [⟨0, skeletonKeys⟩])

/-- `ISLAvatar._create_food_gesture`. -/
def create_food_gesture (st0 : Store) : Store × List GestureFrame :=
  (List.range 12).foldl
    (fun acc i =>
      match acc with
      | (stA, frames) =>
        let t : ℚ := qdiv ((i : ℕ) : ℚ) 11
        -- `self.skeleton.copy()`: shallow copy sharing the joint objects;
        -- its key table is always `skeletonKeys`
        let joints := skeletonKeys
        let mouth_y := qsub (q 8 5) (qmul (qabs (qsub t (q 1 2))) (q 4 5))
        let st := setPosition stA right_hand (q 1 10, mouth_y, q 1 5)
        (st, frames ++ [⟨qmul t (q 3 2), joints⟩]))
    (st0, [⟨0, skeletonKeys⟩])

/-- `ISLAvatar._create_home_gesture` (the `roof_t` local of the source is
computed and never used; it is dropped). -/
def create_home_gesture (st0 : Store) : Store × List GestureFrame :=
  (List.range 20).foldl
    (fun acc i =>
      match acc with
      | (stA, frames) =>
        let t : ℚ := qdiv ((i : ℕ) : ℚ) 19
        -- `self.skeleton.copy()`: shallow copy sharing the joint objects;
        -- its key table is always `skeletonKeys`
        let joints := skeletonKeys
        let st :=
          if t < q 1 2 then
            let height := qmul t (q 2 5)
            let st := setPosition stA left_hand (q (-3) 10, qadd (q 6 5) height, q 1 10)
            setPosition st right_hand (q 3 10, qadd (q 6 5) height, q 1 10)
          else
            let st := setPosition stA left_hand (q (-3) 10, q 7 5, q 1 10)
            setPosition st right_hand (q 3 10, q 7 5, q 1 10)
        (st, frames ++ [⟨qmul t (q 5 2), joints⟩]))
    (st0, [⟨0, skeletonKeys⟩])

/-- `ISLAvatar._create_school_gesture`. -/
def create_school_gesture (st0 : Store) : Store × List GestureFrame :=
  (List.range 15).foldl
    (fun acc i =>
      match acc with
      | (stA, frames) =>
        let t : ℚ := qdiv ((i : ℕ) : ℚ) 14
        -- `self.skeleton.copy()`: shallow copy sharing the joint objects;
        -- its key table is always `skeletonKeys`
        let joints := skeletonKeys
        let st := setPosition stA right_hand (qadd (q 1 5) (qmul t (q 3 10)), 1, q 1 10)
        let st := setRotation st right_wrist (0, 0, qmul t (q 1 5))
        (st, frames ++ [⟨qmul t 2, joints⟩]))
    (st0, [⟨0, skeletonKeys⟩])

/-- `ISLAvatar._load_gesture_database`: the dict literal evaluates its values
in source order, each builder reading and mutating the shared skeleton
heap. -/
def load_gesture_database (s : ℚ → ℚ) (st0 : Store) :
    Store × List (String × List GestureFrame) :=
  match create_hello_gesture s st0 with
  | (st1, hello) =>
  match create_thank_you_gesture st1 with
  | (st2, thank_you) =>
  match create_yes_gesture s st2 with
  | (st3, yes) =>
  match create_no_gesture s st3 with
  | (st4, no) =>
  match create_good_gesture st4 with
  | (st5, good) =>
  match create_bad_gesture st5 with
  | (st6, bad) =>
  match create_water_gesture st6 with
  | (st7, water) =>
  match create_food_gesture st7 with
  | (st8, food) =>
  match create_home_gesture st8 with
  | (st9, home) =>
  match create_school_gesture st9 with
  | (st10, school) =>
  (st10,
   [("HELLO", hello), ("THANK_YOU", thank_you), ("YES", yes), ("NO", no),
    ("GOOD", good), ("BAD", bad), ("WATER", water), ("FOOD", food),
    ("HOME", home), ("SCHOOL", school)])

/-- `ISLAvatar.__init__`: builds the skeleton, then the gesture database
(the `current_pose` and `animation_speed` fields are never read by the
operations modelled here and are dropped).  Returns the heap as it stands
after construction, together with the gesture catalog. -/
def initAvatar (s : ℚ → ℚ) : Store × List (String × List GestureFrame) :=
  load_gesture_database s create_skeleton

/-- `frames[-1].timestamp if frames else 0.0` (the empty default is spelled
out only in `export_animation`; `animate_gesture`/`animate_text` index
`[-1]` directly but only on non-empty catalog entries, where the default is
never consulted). -/
def lastTimestamp (fs : List GestureFrame) : ℚ :=
  match fs.getLast? with
  | some f => f.timestamp
  | none => 0

/-- `ISLAvatar.animate_gesture(gesture_name, duration=None)`.  The Python
guard `if duration:` is truthy exactly when `duration` is neither `None`
nor `0.0`, so a passed duration of `0` skips the scaling branch. -/
def animate_gesture (db : List (String × List GestureFrame)) (gesture_name : String)
    (duration : Option ℚ) : List GestureFrame :=
  match db.lookup gesture_name with
  | none => []
  | some gesture_frames =>
    match duration with
    | none => gesture_frames
    | some d =>
      if d = 0 then gesture_frames
      else
        let original_duration := lastTimestamp gesture_frames
        let scale_factor := qdiv d original_duration
        gesture_frames.map (fun frame => { frame with timestamp := qmul frame.timestamp scale_factor })

/-- The per-letter body of the unknown-word branch of `animate_text`:
`if letter in self.gesture_database: ... current_time += ... + 0.2`. -/
def spellLetter (db : List (String × List GestureFrame))
    (acc : List GestureFrame × ℚ) (letter : Char) : List GestureFrame × ℚ :=
  if (db.lookup (String.singleton letter)).isSome then
    let gesture_frames := animate_gesture db (String.singleton letter) none
    (acc.1 ++ gesture_frames.map (fun f => { f with timestamp := qadd f.timestamp acc.2 }),
     qadd acc.2 (qadd (lastTimestamp gesture_frames) (q 1 5)))
  else acc

/-- The per-word body of `animate_text`: known words are played whole and
advance the clock by their final timestamp plus the 0.5 s pause; unknown
words are spelled letter by letter. -/
def processWord (db : List (String × List GestureFrame))
    (acc : List GestureFrame × ℚ) (word : String) : List GestureFrame × ℚ :=
  if (db.lookup word).isSome then
    let gesture_frames := animate_gesture db word none
    (acc.1 ++ gesture_frames.map (fun f => { f with timestamp := qadd f.timestamp acc.2 }),
     qadd acc.2 (qadd (lastTimestamp gesture_frames) (q 1 2)))
  else
    word.toList.foldl (spellLetter db) acc

/-- Helper for `pySplit`: scan the character list, accumulating the current
word reversed, emitting a word at each whitespace run boundary. -/
def splitAuxWS : List Char → List Char → List String
  | [], cur => if cur = [] then [] else [String.mk cur.reverse]
  | c :: cs, cur =>
    if c.isWhitespace then
      if cur = [] then splitAuxWS cs []
      else String.mk cur.reverse :: splitAuxWS cs []
    else splitAuxWS cs (c :: cur)

/-- Python's `str.split()` with no argument: split on runs of whitespace,
dropping empty pieces. -/
def pySplit (text : String) : List String := splitAuxWS text.data []

/-- Python's `str.upper()` on the ASCII text this engine receives. -/
def pyUpper (text : String) : String := String.mk (text.data.map Char.toUpper)

/-- `ISLAvatar.animate_text(text)`: `text.upper().split()` splits on runs of
whitespace and drops empty pieces, then each word is processed in order
against an accumulator of (emitted frames, current clock), starting from
`([], 0.0)`. -/
def animate_text (db : List (String × List GestureFrame)) (text : String) :
    List GestureFrame :=
  let words := pySplit (pyUpper text)
  (words.foldl (processWord db) ([], 0)).1

/-- One entry of the per-frame `joints` map built by `export_animation`. -/
structure JointExport where
  position : ℚ × ℚ × ℚ
  rotation : ℚ × ℚ × ℚ
deriving DecidableEq

/-- One record of the `frames` list built by `export_animation`. -/
structure FrameExport where
  timestamp : ℚ
  joints : List (JointName × JointExport)
deriving DecidableEq

/-- The `animation_data` object built by `export_animation` (the final
`json.dumps` serialization to a string is outside the model; the empty
string returned for unsupported formats is modelled by `none`). -/
structure AnimationData where
  frames : List FrameExport
  duration : ℚ
deriving DecidableEq

/-- `ISLAvatar.export_animation(frames, format)`.  Reading
`frame.joints.items()` dereferences the shared joint objects, i.e. looks
the names up in the heap `st` as it stands at export time. -/
def export_animation (st : Store) (frames : List GestureFrame) (format : String) :
    Option AnimationData :=
  if format = "json" then
    some
      { duration := lastTimestamp frames
        frames := frames.map (fun frame =>
          { timestamp := frame.timestamp
            joints := frame.joints.map (fun joint_name =>
              (joint_name,
               { position := (lookupJoint st joint_name).position
                 rotation := (lookupJoint st joint_name).rotation : JointExport })) }) }
  else none

/-- Reading a frame's pose for one joint: the frame's dict maps the name to
the shared heap object (and raises `KeyError`, modelled `none`, for a name
outside the frame's key set). -/
def framePose (st : Store) (f : GestureFrame) (n : JointName) : Option Joint :=
  if n ∈ f.joints then some (lookupJoint st n) else none

/-- A fixed stand-in for `math.sin` used to state closed, decidable facts;
the catalog's frames are independent of the sine values. -/
def sZero : ℚ → ℚ := fun _ => 0

/-- Timestamps are monotonically non-decreasing along a frame list. -/
def tsMono (l : List GestureFrame) : Prop :=
  l.Pairwise (fun a b => a.timestamp ≤ b.timestamp)

instance : DecidablePred tsMono := fun l =>
  inferInstanceAs (Decidable (l.Pairwise _))

/-- The frame-sequence well-formedness the spec asserts of catalog entries:
non-empty, starting at timestamp 0, non-decreasing, every timestamp between
0 and a positive final timestamp. -/
def goodFrames (fs : List GestureFrame) : Prop :=
  fs ≠ [] ∧ fs.head?.map (·.timestamp) = some 0 ∧ tsMono fs ∧
  (∀ f ∈ fs, 0 ≤ f.timestamp ∧ f.timestamp ≤ lastTimestamp fs) ∧
  0 < lastTimestamp fs

instance : DecidablePred goodFrames := fun fs => by
  unfold goodFrames
  infer_instance

/-- Every catalog entry is well-formed. -/
def goodDB (db : List (String × List GestureFrame)) : Prop :=
  ∀ p ∈ db, goodFrames p.2

instance : DecidablePred goodDB := fun db => by
  unfold goodDB
  infer_instance

/-- The gesture catalog as the explicit frame table it evaluates to: each
entry's timestamps, with every frame sharing the twelve skeleton joints.
Proved equal to the engine's catalog (for every sine model) in
`gesture_database_eval`. -/
def gesture_database : List (String × List GestureFrame) :=
 [
  ("HELLO",
   [⟨0, skeletonKeys⟩,
    ⟨0, skeletonKeys⟩,
    ⟨q 2 9, skeletonKeys⟩,
    ⟨q 4 9, skeletonKeys⟩,
    ⟨q 2 3, skeletonKeys⟩,
    ⟨q 8 9, skeletonKeys⟩,
    ⟨q 10 9, skeletonKeys⟩,
    ⟨q 4 3, skeletonKeys⟩,
    ⟨q 14 9, skeletonKeys⟩,
    ⟨q 16 9, skeletonKeys⟩,
    ⟨2, skeletonKeys⟩]),
  ("THANK_YOU",
   [⟨0, skeletonKeys⟩,
    ⟨0, skeletonKeys⟩,
    ⟨q 3 28, skeletonKeys⟩,
    ⟨q 3 14, skeletonKeys⟩,
    ⟨q 9 28, skeletonKeys⟩,
    ⟨q 3 7, skeletonKeys⟩,
    ⟨q 15 28, skeletonKeys⟩,
    ⟨q 9 14, skeletonKeys⟩,
    ⟨q 3 4, skeletonKeys⟩,
    ⟨q 6 7, skeletonKeys⟩,
    ⟨q 27 28, skeletonKeys⟩,
    ⟨q 15 14, skeletonKeys⟩,
    ⟨q 33 28, skeletonKeys⟩,
    ⟨q 9 7, skeletonKeys⟩,
    ⟨q 39 28, skeletonKeys⟩,
    ⟨q 3 2, skeletonKeys⟩]),
  ("YES",
   [⟨0, skeletonKeys⟩,
    ⟨0, skeletonKeys⟩,
    ⟨q 1 7, skeletonKeys⟩,
    ⟨q 2 7, skeletonKeys⟩,
    ⟨q 3 7, skeletonKeys⟩,
    ⟨q 4 7, skeletonKeys⟩,
    ⟨q 5 7, skeletonKeys⟩,
    ⟨q 6 7, skeletonKeys⟩,
    ⟨1, skeletonKeys⟩]),
  ("NO",
   [⟨0, skeletonKeys⟩,
    ⟨0, skeletonKeys⟩,
    ⟨q 6 55, skeletonKeys⟩,
    ⟨q 12 55, skeletonKeys⟩,
    ⟨q 18 55, skeletonKeys⟩,
    ⟨q 24 55, skeletonKeys⟩,
    ⟨q 6 11, skeletonKeys⟩,
    ⟨q 36 55, skeletonKeys⟩,
    ⟨q 42 55, skeletonKeys⟩,
    ⟨q 48 55, skeletonKeys⟩,
    ⟨q 54 55, skeletonKeys⟩,
    ⟨q 12 11, skeletonKeys⟩,
    ⟨q 6 5, skeletonKeys⟩]),
  ("GOOD",
   [⟨0, skeletonKeys⟩,
    ⟨0, skeletonKeys⟩,
    ⟨q 1 9, skeletonKeys⟩,
    ⟨q 2 9, skeletonKeys⟩,
    ⟨q 1 3, skeletonKeys⟩,
    ⟨q 4 9, skeletonKeys⟩,
    ⟨q 5 9, skeletonKeys⟩,
    ⟨q 2 3, skeletonKeys⟩,
    ⟨q 7 9, skeletonKeys⟩,
    ⟨q 8 9, skeletonKeys⟩,
    ⟨1, skeletonKeys⟩]),
  ("BAD",
   [⟨0, skeletonKeys⟩,
    ⟨0, skeletonKeys⟩,
    ⟨q 1 9, skeletonKeys⟩,
    ⟨q 2 9, skeletonKeys⟩,
    ⟨q 1 3, skeletonKeys⟩,
    ⟨q 4 9, skeletonKeys⟩,
    ⟨q 5 9, skeletonKeys⟩,
    ⟨q 2 3, skeletonKeys⟩,
    ⟨q 7 9, skeletonKeys⟩,
    ⟨q 8 9, skeletonKeys⟩,
    ⟨1, skeletonKeys⟩]),
  ("WATER",
   [⟨0, skeletonKeys⟩,
    ⟨0, skeletonKeys⟩,
    ⟨q 1 7, skeletonKeys⟩,
    ⟨q 2 7, skeletonKeys⟩,
    ⟨q 3 7, skeletonKeys⟩,
    ⟨q 4 7, skeletonKeys⟩,
    ⟨q 5 7, skeletonKeys⟩,
    ⟨q 6 7, skeletonKeys⟩,
    ⟨1, skeletonKeys⟩,
    ⟨q 8 7, skeletonKeys⟩,
    ⟨q 9 7, skeletonKeys⟩,
    ⟨q 10 7, skeletonKeys⟩,
    ⟨q 11 7, skeletonKeys⟩,
    ⟨q 12 7, skeletonKeys⟩,
    ⟨q 13 7, skeletonKeys⟩,
    ⟨2, skeletonKeys⟩]),
  ("FOOD",
   [⟨0, skeletonKeys⟩,
    ⟨0, skeletonKeys⟩,
    ⟨q 3 22, skeletonKeys⟩,
    ⟨q 3 11, skeletonKeys⟩,
    ⟨q 9 22, skeletonKeys⟩,
    ⟨q 6 11, skeletonKeys⟩,
    ⟨q 15 22, skeletonKeys⟩,
    ⟨q 9 11, skeletonKeys⟩,
    ⟨q 21 22, skeletonKeys⟩,
    ⟨q 12 11, skeletonKeys⟩,
    ⟨q 27 22, skeletonKeys⟩,
    ⟨q 15 11, skeletonKeys⟩,
    ⟨q 3 2, skeletonKeys⟩]),
  ("HOME",
   [⟨0, skeletonKeys⟩,
    ⟨0, skeletonKeys⟩,
    ⟨q 5 38, skeletonKeys⟩,
    ⟨q 5 19, skeletonKeys⟩,
    ⟨q 15 38, skeletonKeys⟩,
    ⟨q 10 19, skeletonKeys⟩,
    ⟨q 25 38, skeletonKeys⟩,
    ⟨q 15 19, skeletonKeys⟩,
    ⟨q 35 38, skeletonKeys⟩,
    ⟨q 20 19, skeletonKeys⟩,
    ⟨q 45 38, skeletonKeys⟩,
    ⟨q 25 19, skeletonKeys⟩,
    ⟨q 55 38, skeletonKeys⟩,
    ⟨q 30 19, skeletonKeys⟩,
    ⟨q 65 38, skeletonKeys⟩,
    ⟨q 35 19, skeletonKeys⟩,
    ⟨q 75 38, skeletonKeys⟩,
    ⟨q 40 19, skeletonKeys⟩,
    ⟨q 85 38, skeletonKeys⟩,
    ⟨q 45 19, skeletonKeys⟩,
    ⟨q 5 2, skeletonKeys⟩]),
  ("SCHOOL",
   [⟨0, skeletonKeys⟩,
    ⟨0, skeletonKeys⟩,
    ⟨q 1 7, skeletonKeys⟩,
    ⟨q 2 7, skeletonKeys⟩,
    ⟨q 3 7, skeletonKeys⟩,
    ⟨q 4 7, skeletonKeys⟩,
    ⟨q 5 7, skeletonKeys⟩,
    ⟨q 6 7, skeletonKeys⟩,
    ⟨1, skeletonKeys⟩,
    ⟨q 8 7, skeletonKeys⟩,
    ⟨q 9 7, skeletonKeys⟩,
    ⟨q 10 7, skeletonKeys⟩,
    ⟨q 11 7, skeletonKeys⟩,
    ⟨q 12 7, skeletonKeys⟩,
    ⟨q 13 7, skeletonKeys⟩,
    ⟨2, skeletonKeys⟩])]

/-- The catalog built by the engine is exactly `gesture_database`,
independently of the sine model `s` (the sine values only reach joint
rotations in the heap, never the frame table). -/
theorem gesture_database_eval (s : ℚ → ℚ) : (initAvatar s).2 = gesture_database := rfl

/-- Membership from a successful association-list lookup. -/
theorem mem_of_lookup_eq_some {β : Type} {l : List (String × β)} {k : String} {v : β}
    (h : l.lookup k = some v) : (k, v) ∈ l := by
  induction l with
  | nil => simp [List.lookup] at h
  | cons p t ih =>
    rw [List.lookup] at h
    split at h
    · rename_i heq
      cases p with
      | mk k1 v1 =>
        simp only [beq_iff_eq] at heq
        cases h
        cases heq
        exact List.mem_cons_self _ _
    · exact List.mem_cons_of_mem _ (ih h)

/-- `getLast?` commutes with `map`. -/
theorem getLast?_map' {α β : Type} (f : α → β) :
    ∀ l : List α, (l.map f).getLast? = l.getLast?.map f
  | [] => rfl
  | [_] => rfl
  | _ :: b :: t => by
    simp only [List.map_cons, List.getLast?_cons_cons]
    exact getLast?_map' f (b :: t)

/-- Every entry of the explicit catalog is well-formed. -/
theorem gesture_database_good : goodDB gesture_database := by decide

/-- Every entry of the engine's catalog is well-formed, for any sine model. -/
theorem catalog_good (s : ℚ → ℚ) : goodDB (initAvatar s).2 := by
  rw [gesture_database_eval]
  exact gesture_database_good

/-- Depth-first traversal of the skeleton along `children`, with explicit
fuel; visits a joint each time the children structure reaches it. -/
def traverse (st : Store) : Nat → List JointName → List JointName
  | 0, _ => []
  | _ + 1, [] => []
  | fuel + 1, n :: rest => n :: traverse st fuel ((lookupJoint st n).children ++ rest)

/-- C2, counterexample: the skeleton has twelve joints, not eleven; the
non-root joint `spine` has no parent field; and `left_shoulder`'s children
list holds a duplicate — so the claimed 11-joint tree with bidirectional
parent/child consistency and duplicate-free children fails on the code. -/
theorem c2_counterexample :
    skeletonKeys.length = 12 ∧ skeletonKeys.length ≠ 11 ∧
    (create_skeleton.spine).parent = none ∧ JointName.spine ≠ JointName.hip ∧
    (create_skeleton.left_shoulder).children = [left_elbow, left_elbow] := by
  decide

/-- C2, amended: the skeleton built by `create_skeleton` has exactly twelve
distinct joints, each storing its own name; only the six elbow/wrist/hand
joints carry a parent field, and for each of those the parent's children
list contains the joint (the remaining five non-root joints have no parent,
so the reverse direction of the claimed bidirectional consistency fails);
the children lists are exactly the table below, with the arm chains
duplicated by the linking loop; depth-first traversal from `hip` along
children terminates (stable once fuel suffices), reaches all twelve joints,
but visits 34 nodes rather than 12 because of the duplicated entries. -/
theorem c2_skeleton_structure :
    skeletonKeys.length = 12 ∧ skeletonKeys.Nodup ∧
    (∀ n ∈ skeletonKeys, (lookupJoint create_skeleton n).name = n) ∧
    (∀ n ∈ skeletonKeys, ∀ p ∈ ((lookupJoint create_skeleton n).parent).toList,
        p ∈ skeletonKeys ∧ n ∈ (lookupJoint create_skeleton p).children) ∧
    (skeletonKeys.filter (fun n => ((lookupJoint create_skeleton n).parent).isSome)) =
      [left_elbow, left_wrist, left_hand, right_elbow, right_wrist, right_hand] ∧
    (skeletonKeys.map (fun n => (lookupJoint create_skeleton n).children)) =
      [[], [head],
       [left_elbow, left_elbow], [left_wrist, left_wrist], [left_hand, left_hand], [],
       [right_elbow, right_elbow], [right_wrist, right_wrist], [right_hand, right_hand], [],
       [left_shoulder, right_shoulder, neck], [spine]] ∧
    (∀ n ∈ skeletonKeys, n ∈ traverse create_skeleton 64 [hip]) ∧
    (traverse create_skeleton 64 [hip]).length = 34 ∧
    traverse create_skeleton 64 [hip] = traverse create_skeleton 128 [hip] := by
  decide

/-- C4: the code does not reject non-positive durations: a duration of `0`
is falsy in Python, so `animate_gesture('HELLO', 0)` silently returns the
original catalog frames, and a negative duration is scaled through,
yielding a negated final timestamp instead of an error. -/
theorem c4_nonpositive_duration_not_rejected (s : ℚ → ℚ) :
    animate_gesture (initAvatar s).2 "HELLO" (some 0) =
      animate_gesture (initAvatar s).2 "HELLO" none ∧
    lastTimestamp (animate_gesture (initAvatar s).2 "HELLO" (some (-1))) = -1 := by
  rw [gesture_database_eval]
  exact ⟨by decide, by decide⟩

/-- C5: a gesture name absent from the catalog yields the empty frame list,
with or without a duration argument (the source logs a warning and returns
`[]`; no exception is raised — the model function is total). -/
theorem c5_unknown_gesture_empty (s : ℚ → ℚ) (name : String)
    (h : (initAvatar s).2.lookup name = none) :
    animate_gesture (initAvatar s).2 name none = [] ∧
    ∀ d : ℚ, animate_gesture (initAvatar s).2 name (some d) = [] := by
  unfold animate_gesture
  rw [h]
  exact ⟨rfl, fun _ => rfl⟩

theorem c5_witness :
    (initAvatar sZero).2.lookup "NONEXISTENT" = none ∧
    animate_gesture (initAvatar sZero).2 "NONEXISTENT" none = [] ∧
    animate_gesture (initAvatar sZero).2 "NONEXISTENT" (some 3) = [] :=
  ⟨by rw [gesture_database_eval]; decide,
   (c5_unknown_gesture_empty sZero "NONEXISTENT"
      (by rw [gesture_database_eval]; decide)).1,
   (c5_unknown_gesture_empty sZero "NONEXISTENT"
      (by rw [gesture_database_eval]; decide)).2 3⟩

/-- C8: exporting with the structured (`json`) format yields a record whose
`duration` is the last frame's timestamp (`0` for empty input) and whose
`frames` list has, per input frame, that frame's timestamp and the map from
each of its joint names to the joint's current position and rotation; every
other format yields the empty result. -/
theorem c8_export (st : Store) (frames : List GestureFrame) :
    ((export_animation st frames "json").map (·.duration) =
        some (match frames.getLast? with | some f => f.timestamp | none => 0)) ∧
    ((export_animation st frames "json").map (fun d => d.frames.map (·.timestamp)) =
        some (frames.map (·.timestamp))) ∧
    ((export_animation st frames "json").map (fun d => d.frames.map (·.joints)) =
        some (frames.map (fun f => f.joints.map (fun n =>
          (n, { position := (lookupJoint st n).position
                rotation := (lookupJoint st n).rotation : JointExport }))))) ∧
    export_animation st [] "json" = some { frames := [], duration := 0 } ∧
    ∀ fmt : String, fmt ≠ "json" → export_animation st frames fmt = none := by
  refine ⟨rfl, ?_, ?_, rfl, ?_⟩
  · simp [export_animation]
  · simp [export_animation]
  · intro fmt hfmt
    simp [export_animation, hfmt]

theorem c8_witness :
    export_animation create_skeleton [] "json" = some { frames := [], duration := 0 } ∧
    export_animation create_skeleton [⟨1, [hip]⟩] "bvh" = none :=
  ⟨(c8_export create_skeleton []).2.2.2.1,
   (c8_export create_skeleton [⟨1, [hip]⟩]).2.2.2.2 "bvh" (by decide)⟩

/-- C9: every catalog gesture's frame sequence is non-empty, starts at
timestamp exactly 0, and has non-decreasing timestamps. -/
theorem c9_catalog_wellformed (s : ℚ → ℚ) (p : String × List GestureFrame)
    (hp : p ∈ (initAvatar s).2) :
    p.2 ≠ [] ∧ p.2.head?.map (·.timestamp) = some 0 ∧ tsMono p.2 := by
  have h := catalog_good s p hp
  exact ⟨h.1, h.2.1, h.2.2.1⟩

theorem c9_witness :
    ("HELLO", (gesture_database.lookup "HELLO").getD []) ∈ (initAvatar sZero).2 ∧
    (gesture_database.lookup "HELLO").getD [] ≠ [] := by
  constructor
  · rw [gesture_database_eval]
    decide
  · exact (c9_catalog_wellformed sZero ("HELLO", (gesture_database.lookup "HELLO").getD [])
      (by rw [gesture_database_eval]; decide)).1

/-- C1: evaluation at the failing input.  The claim of an immutable
rest-pose skeleton is violated: the gesture builders' shallow dict copies
share the canonical joint objects, so after `ISLAvatar()` construction the
skeleton's `right_hand` holds the BAD gesture's rotation and the SCHOOL
gesture's position instead of the rest pose set in `_create_skeleton`, and
every frame of the HELLO gesture shows the HOME gesture's position for
`left_hand` — a joint irrelevant to HELLO — rather than its rest pose. -/
theorem c1_skeleton_mutated (s : ℚ → ℚ) :
    ((initAvatar s).1.right_hand).rotation = (0, 0, q (-157) 100) ∧
    (skeletonLiteral.right_hand).rotation = (0, 0, 0) ∧
    ((initAvatar s).1.right_hand).position = (q 1 2, 1, q 1 10) ∧
    (skeletonLiteral.right_hand).position = (q 4 5, q 7 10, 0) ∧
    ((animate_gesture (initAvatar s).2 "HELLO" none).map
        (fun f => (framePose (initAvatar s).1 f left_hand).map (·.position))) =
      List.replicate 11 (some (q (-3) 10, q 7 5, q 1 10)) ∧
    (skeletonLiteral.left_hand).position = (q (-4) 5, q 7 10, 0) ∧
    ((q (-3) 10 : ℚ), (q 7 5 : ℚ), (q 1 10 : ℚ)) ≠ ((q (-4) 5 : ℚ), (q 7 10 : ℚ), (0 : ℚ)) := by
  refine ⟨rfl, rfl, rfl, rfl, ?_, rfl, by decide⟩
  rfl

/-- C10, counterexample: the frames reference twelve shared joint objects,
not eleven — the canonical skeleton itself has twelve entries. -/
theorem c10_counterexample :
    skeletonKeys.length = 12 ∧ skeletonKeys.length ≠ 11 ∧
    (∀ p ∈ gesture_database, ∀ f ∈ p.2, f.joints.length = 12) := by
  decide

/-- C10, amended (eleven corrected to twelve): every frame of every catalog
gesture carries the same key table as the canonical skeleton — the twelve
shared joint objects — so any two frames of any gestures read identical
per-joint positions and rotations through the shared heap, namely the
values left by the last in-place write during construction (BAD's rotation
and SCHOOL's position for `right_hand`, HOME's position for `left_hand`). -/
theorem c10_shared_joints (s : ℚ → ℚ) :
    (∀ p ∈ (initAvatar s).2, ∀ f ∈ p.2, f.joints = skeletonKeys) ∧
    (∀ p ∈ (initAvatar s).2, ∀ p' ∈ (initAvatar s).2, ∀ f ∈ p.2, ∀ g ∈ p'.2,
       ∀ n, framePose (initAvatar s).1 f n = framePose (initAvatar s).1 g n) ∧
    ((initAvatar s).1.right_hand).rotation = (0, 0, q (-157) 100) ∧
    ((initAvatar s).1.right_hand).position = (q 1 2, 1, q 1 10) ∧
    ((initAvatar s).1.left_hand).position = (q (-3) 10, q 7 5, q 1 10) := by
  have hkeys : ∀ p ∈ (initAvatar s).2, ∀ f ∈ p.2, f.joints = skeletonKeys := by
    rw [gesture_database_eval]
    decide
  refine ⟨hkeys, ?_, rfl, rfl, rfl⟩
  intro p hp p' hp' f hf g hg n
  rw [framePose, framePose, hkeys p hp f hf, hkeys p' hp' g hg]

/-- C3: for a catalog gesture, omitting the duration returns the catalog
frames unmodified; a duration `D > 0` rescales every timestamp to
`timestamp * D / original_final_timestamp`, leaving the joint table of each
frame untouched (same length, same poses), and the final timestamp of the
result is exactly `D`. -/
theorem c3_rescaling (s : ℚ → ℚ) (name : String) (fs : List GestureFrame) (D : ℚ)
    (hfs : (initAvatar s).2.lookup name = some fs) (hD : 0 < D) :
    animate_gesture (initAvatar s).2 name none = fs ∧
    animate_gesture (initAvatar s).2 name (some D) =
      fs.map (fun f => { f with timestamp := f.timestamp * D / lastTimestamp fs }) ∧
    lastTimestamp (animate_gesture (initAvatar s).2 name (some D)) = D := by
  have hgood : goodFrames fs := catalog_good s (name, fs) (mem_of_lookup_eq_some hfs)
  have hlast : 0 < lastTimestamp fs := hgood.2.2.2.2
  have hne : fs ≠ [] := hgood.1
  have hDne : ¬ (D = 0) := ne_of_gt hD
  have hmap : animate_gesture (initAvatar s).2 name (some D) =
      fs.map (fun f => { f with timestamp := f.timestamp * D / lastTimestamp fs }) := by
    simp only [animate_gesture, hfs, hDne, if_false]
    refine List.map_congr_left (fun f _ => ?_)
    rw [qmul_eq, qdiv_eq, mul_div_assoc]
  refine ⟨by simp [animate_gesture, hfs], hmap, ?_⟩
  rw [hmap]
  rcases hl : fs.getLast? with _ | l
  · exact absurd (List.getLast?_eq_none_iff.mp hl) hne
  · have hlt : lastTimestamp fs = l.timestamp := by
      simp [lastTimestamp, hl]
    have hmap2 : lastTimestamp
        (fs.map (fun f => { f with timestamp := f.timestamp * D / lastTimestamp fs })) =
        l.timestamp * D / lastTimestamp fs := by
      simp [lastTimestamp, getLast?_map', hl]
    rw [hmap2, hlt, mul_comm, mul_div_assoc,
      div_self (by rw [hlt] at hlast; exact ne_of_gt hlast), mul_one]

theorem c3_witness :
    (initAvatar sZero).2.lookup "HELLO" = some ((gesture_database.lookup "HELLO").getD []) ∧
    (0 : ℚ) < 3 ∧
    lastTimestamp (animate_gesture (initAvatar sZero).2 "HELLO" (some 3)) = 3 := by
  refine ⟨by rw [gesture_database_eval]; decide, by norm_num, ?_⟩
  exact (c3_rescaling sZero "HELLO" ((gesture_database.lookup "HELLO").getD []) 3
    (by rw [gesture_database_eval]; decide) (by norm_num)).2.2

theorem q12_eq : q 1 2 = (1 : ℚ) / 2 := by
  rw [q_eq]
  norm_num

theorem q15_eq : q 1 5 = (1 : ℚ) / 5 := by
  rw [q_eq]
  norm_num

/-- The invariant the compositor maintains: emitted timestamps are
non-decreasing and all bounded by the running clock. -/
def StInv (acc : List GestureFrame × ℚ) : Prop :=
  tsMono acc.1 ∧ ∀ f ∈ acc.1, f.timestamp ≤ acc.2

/-- Appending a well-formed gesture's frames offset by the clock preserves
monotonicity, and the advanced clock bounds all emitted timestamps. -/
theorem append_step_inv (acc : List GestureFrame × ℚ) (fs : List GestureFrame) (pause : ℚ)
    (hg : goodFrames fs) (hp : 0 ≤ pause)
    (h1 : tsMono acc.1) (h2 : ∀ f ∈ acc.1, f.timestamp ≤ acc.2) :
    tsMono (acc.1 ++ fs.map (fun f => { f with timestamp := qadd f.timestamp acc.2 })) ∧
    ∀ f ∈ acc.1 ++ fs.map (fun f => { f with timestamp := qadd f.timestamp acc.2 }),
      f.timestamp ≤ qadd acc.2 (qadd (lastTimestamp fs) pause) := by
  obtain ⟨hne, hhead, hmono, hbound, hpos⟩ := hg
  simp only [qadd_eq]
  constructor
  · rw [tsMono, List.pairwise_append]
    refine ⟨h1, ?_, ?_⟩
    · rw [List.pairwise_map]
      exact hmono.imp (fun hab => by simpa using add_le_add_right hab acc.2)
    · intro a ha b hb
      rw [List.mem_map] at hb
      obtain ⟨f, hf, rfl⟩ := hb
      have h0 : 0 ≤ f.timestamp := (hbound f hf).1
      have ha2 : a.timestamp ≤ acc.2 := h2 a ha
      show a.timestamp ≤ f.timestamp + acc.2
      linarith
  · intro f hf
    rcases List.mem_append.mp hf with h | h
    · have hb := h2 f h
      have l0 : 0 ≤ lastTimestamp fs := le_of_lt hpos
      linarith
    · rw [List.mem_map] at h
      obtain ⟨g, hgm, rfl⟩ := h
      have hb := (hbound g hgm).2
      show g.timestamp + acc.2 ≤ acc.2 + (lastTimestamp fs + pause)
      linarith

theorem spellLetter_inv (db : List (String × List GestureFrame)) (hdb : goodDB db)
    (acc : List GestureFrame × ℚ) (c : Char) (h : StInv acc) :
    StInv (spellLetter db acc c) := by
  unfold spellLetter
  split
  · rename_i hsome
    obtain ⟨fs, hfs⟩ := Option.isSome_iff_exists.mp hsome
    have hg : goodFrames fs := hdb _ (mem_of_lookup_eq_some hfs)
    have hag : animate_gesture db (String.singleton c) none = fs := by
      simp [animate_gesture, hfs]
    rw [hag]
    exact ⟨(append_step_inv acc fs (q 1 5) hg (by decide) h.1 h.2).1,
           (append_step_inv acc fs (q 1 5) hg (by decide) h.1 h.2).2⟩
  · exact h

theorem foldl_inv {σ α : Type} (P : σ → Prop) (f : σ → α → σ)
    (hf : ∀ st a, P st → P (f st a)) : ∀ (l : List α) (st : σ), P st → P (l.foldl f st)
  | [], _, h => h
  | a :: l, st, h => foldl_inv P f hf l (f st a) (hf st a h)

theorem processWord_inv (db : List (String × List GestureFrame)) (hdb : goodDB db)
    (acc : List GestureFrame × ℚ) (w : String) (h : StInv acc) :
    StInv (processWord db acc w) := by
  unfold processWord
  split
  · rename_i hsome
    obtain ⟨fs, hfs⟩ := Option.isSome_iff_exists.mp hsome
    have hg : goodFrames fs := hdb _ (mem_of_lookup_eq_some hfs)
    have hag : animate_gesture db w none = fs := by
      simp [animate_gesture, hfs]
    rw [hag]
    exact ⟨(append_step_inv acc fs (q 1 2) hg (by decide) h.1 h.2).1,
           (append_step_inv acc fs (q 1 2) hg (by decide) h.1 h.2).2⟩
  · exact foldl_inv StInv (spellLetter db) (fun st a => spellLetter_inv db hdb st a)
      w.toList acc h

/-- For a well-formed catalog, the compositor's output timeline always has
monotonically non-decreasing timestamps. -/
theorem animate_text_mono (db : List (String × List GestureFrame)) (hdb : goodDB db)
    (text : String) : tsMono (animate_text db text) :=
  (foldl_inv StInv (processWord db) (fun st a => processWord_inv db hdb st a)
    (pySplit (pyUpper text)) ([], 0)
    ⟨List.Pairwise.nil, fun _ hf => absurd hf (List.not_mem_nil _)⟩).1

/-- Shared helper: the composed timeline for `"HELLO YES"` splits as the
HELLO frames at offset 0 followed by the YES frames at offset
`0 + (2.0 + 0.5)` (HELLO's final timestamp plus the 0.5 s word pause). -/
theorem helloYes_decomposition :
    animate_text gesture_database "HELLO YES" =
      ((gesture_database.lookup "HELLO").getD []).map
          (fun f => { f with timestamp := f.timestamp + 0 }) ++
      ((gesture_database.lookup "YES").getD []).map
          (fun f => { f with timestamp := f.timestamp + (0 + (2 + 1/2)) }) := by
  rw [show ((0 : ℚ) + (2 + 1/2)) = q 5 2 by rw [q_eq]; norm_num]
  simp only [← qadd_eq]
  decide

/-- C6, counterexample: the strict form fails at the boundary — the YES
portion's first frame sits at timestamp 2.5, which equals (does not exceed)
HELLO's final timestamp 2.0 plus the 0.5 s pause. -/
theorem c6_counterexample :
    ¬ ∀ f ∈ ((gesture_database.lookup "YES").getD []).map
          (fun f => { f with timestamp := f.timestamp + (0 + (2 + 1/2)) }),
        ∀ g ∈ ((gesture_database.lookup "HELLO").getD []).map
          (fun f => { f with timestamp := f.timestamp + 0 }),
          g.timestamp + 1/2 < f.timestamp := by
  intro h
  have hf : (⟨q 5 2, skeletonKeys⟩ : GestureFrame) ∈
      ((gesture_database.lookup "YES").getD []).map
        (fun f => { f with timestamp := f.timestamp + (0 + (2 + 1/2)) }) := by
    rw [show ((0 : ℚ) + (2 + 1/2)) = q 5 2 by rw [q_eq]; norm_num]
    simp only [← qadd_eq]
    decide
  have hg : (⟨(2 : ℚ), skeletonKeys⟩ : GestureFrame) ∈
      ((gesture_database.lookup "HELLO").getD []).map
        (fun f => { f with timestamp := f.timestamp + 0 }) := by
    simp only [← qadd_eq]
    decide
  have hlt := h _ hf _ hg
  rw [show (⟨q 5 2, skeletonKeys⟩ : GestureFrame).timestamp = q 5 2 from rfl,
    show (⟨(2 : ℚ), skeletonKeys⟩ : GestureFrame).timestamp = 2 from rfl, q_eq] at hlt
  norm_num at hlt

/-- C6, amended ("exceeds" weakened to "is at least" at the boundary): the
composed timeline's timestamps are monotonically non-decreasing for every
input text; after each matched word gesture the clock advances by that
gesture's final timestamp plus the 0.5 s pause; and for
`composeText("HELLO YES")` the output is the HELLO portion followed by the
YES portion, with every YES timestamp at least every HELLO timestamp plus
the 0.5 s pause (equality holding at the boundary frames). -/
theorem c6_composition_order (s : ℚ → ℚ) (text : String) :
    tsMono (animate_text (initAvatar s).2 text) ∧
    (∀ (acc : List GestureFrame × ℚ) (word : String) (fs : List GestureFrame),
        (initAvatar s).2.lookup word = some fs →
        processWord (initAvatar s).2 acc word =
          (acc.1 ++ fs.map (fun f => { f with timestamp := f.timestamp + acc.2 }),
           acc.2 + (lastTimestamp fs + 1/2))) ∧
    animate_text (initAvatar s).2 "HELLO YES" =
      ((gesture_database.lookup "HELLO").getD []).map
          (fun f => { f with timestamp := f.timestamp + 0 }) ++
      ((gesture_database.lookup "YES").getD []).map
          (fun f => { f with timestamp := f.timestamp + (0 + (2 + 1/2)) }) ∧
    ∀ f ∈ ((gesture_database.lookup "YES").getD []).map
          (fun f => { f with timestamp := f.timestamp + (0 + (2 + 1/2)) }),
      ∀ g ∈ ((gesture_database.lookup "HELLO").getD []).map
          (fun f => { f with timestamp := f.timestamp + 0 }),
        g.timestamp + 1/2 ≤ f.timestamp := by
  refine ⟨animate_text_mono _ (catalog_good s) text, ?_, ?_, ?_⟩
  · intro acc word fs hfs
    have hag : animate_gesture (initAvatar s).2 word none = fs := by
      simp [animate_gesture, hfs]
    unfold processWord
    rw [if_pos (by rw [hfs]; rfl), hag]
    rw [Prod.mk.injEq]
    constructor
    · simp only [qadd_eq]
    · rw [qadd_eq, qadd_eq, q12_eq]
  · rw [gesture_database_eval]
    exact helloYes_decomposition
  · rw [show ((0 : ℚ) + (2 + 1/2)) = q 5 2 by rw [q_eq]; norm_num, q12_eq.symm]
    simp only [← qadd_eq]
    decide

theorem c6_witness :
    tsMono (animate_text (initAvatar sZero).2 "HELLO YES") :=
  (c6_composition_order sZero "HELLO YES").1

/-- C7: spelling an unknown word proceeds character by character — a
character with no catalog entry contributes nothing and leaves the clock
unchanged; a character matching a catalog entry appends that entry's frames
offset by the clock and advances the clock by its final timestamp plus the
0.2 s pause; consequently, for a database in which `Z` is a single-letter
entry and `ZZ` is not a word entry, `composeText("ZZ")` is exactly two
copies of the `Z` frames separated by the 0.2 s pause. -/
theorem c7_spell_unknown (db : List (String × List GestureFrame)) (zfs : List GestureFrame)
    (h1 : db.lookup "ZZ" = none) (h2 : db.lookup "Z" = some zfs) (_hz : zfs ≠ []) :
    (∀ (acc : List GestureFrame × ℚ) (c : Char),
        db.lookup (String.singleton c) = none → spellLetter db acc c = acc) ∧
    (∀ (acc : List GestureFrame × ℚ) (c : Char) (fs : List GestureFrame),
        db.lookup (String.singleton c) = some fs →
        spellLetter db acc c =
          (acc.1 ++ fs.map (fun f => { f with timestamp := f.timestamp + acc.2 }),
           acc.2 + (lastTimestamp fs + 1/5))) ∧
    animate_text db "ZZ" =
      zfs.map (fun f => { f with timestamp := f.timestamp + 0 }) ++
      zfs.map (fun f => { f with timestamp := f.timestamp + (0 + (lastTimestamp zfs + 1/5)) }) := by
  have hstep : ∀ (acc : List GestureFrame × ℚ) (c : Char) (fs : List GestureFrame),
      db.lookup (String.singleton c) = some fs →
      spellLetter db acc c =
        (acc.1 ++ fs.map (fun f => { f with timestamp := qadd f.timestamp acc.2 }),
         qadd acc.2 (qadd (lastTimestamp fs) (q 1 5))) := by
    intro acc c fs h
    unfold spellLetter
    rw [if_pos (by rw [h]; rfl)]
    have hag : animate_gesture db (String.singleton c) none = fs := by
      simp [animate_gesture, h]
    rw [hag]
  refine ⟨?_, ?_, ?_⟩
  · intro acc c h
    unfold spellLetter
    rw [if_neg (by rw [h]; simp)]
  · intro acc c fs h
    rw [hstep acc c fs h]
    simp only [qadd_eq, q15_eq]
  · have hw : pySplit (pyUpper "ZZ") = ["ZZ"] := by decide
    have hz : "ZZ".toList = ['Z', 'Z'] := by decide
    have hsing : String.singleton 'Z' = "Z" := by decide
    show (List.foldl (processWord db) ([], 0) (pySplit (pyUpper "ZZ"))).1 = _
    rw [hw, List.foldl_cons, List.foldl_nil]
    unfold processWord
    rw [if_neg (by rw [h1]; simp), hz, List.foldl_cons, List.foldl_cons, List.foldl_nil,
      hstep ([], 0) 'Z' zfs (by rw [hsing]; exact h2),
      hstep _ 'Z' zfs (by rw [hsing]; exact h2)]
    dsimp only
    rw [List.nil_append]
    simp only [qadd_eq, q15_eq]

theorem c7_witness :
    animate_text [("Z", [⟨0, []⟩, ⟨1, []⟩])] "ZZ" =
      [(⟨0, []⟩ : GestureFrame), ⟨1, []⟩].map
          (fun f => { f with timestamp := f.timestamp + 0 }) ++
      [(⟨0, []⟩ : GestureFrame), ⟨1, []⟩].map
          (fun f => { f with timestamp :=
            f.timestamp + (0 + (lastTimestamp [⟨0, []⟩, ⟨1, []⟩] + 1/5)) }) :=
  (c7_spell_unknown [("Z", [⟨0, []⟩, ⟨1, []⟩])] [⟨0, []⟩, ⟨1, []⟩]
    (by decide) (by decide) (by decide)).2.2
